import Mathlib

/-!
# Verification of the ContractAnalyzer paginated-fetch-with-retry core

Shallow embedding of the repository's core component: the windowed fetch
orchestrator (`src/services/etherscan.service.ts`) and the remote data source
client (`src/api/etherscan.api.ts`), together with theorems checking the
specification's claims about window decomposition, the NOTOK retry policy,
latest-block decoding, and the error-absorption behaviour.

Block numbers are modelled as `Nat` (the spec's data model fixes
`start ≥ 0`); JS loops are embedded as structurally recursive functions on an
explicit fuel argument that is always initialised large enough to cover every
loop iteration, so that all definitions compute by kernel reduction.
-/

/-! ## Data model (`src/types/etherscan.type.ts`) -/

/-- An internal transaction record as returned by the remote API
(`InternalTransaction` in `etherscan.type.ts`); every field is carried as an
plain string.  The source fields `from` and `to` are renamed `fromAddr` and
`toAddr` because `from` is a Lean keyword. -/
structure InternalTransaction where
  blockNumber : String
  timeStamp : String
  hash : String
  fromAddr : String
  toAddr : String
  value : String
  contractAddress : String
  input : String
  type : String
  gas : String
  gasUsed : String
  traceId : String
  isError : String
  errCode : String
deriving DecidableEq, Repr

/-- An event-log record as returned by the remote API (`EtherscanEvent` in
`etherscan.type.ts`). -/
structure EtherscanEvent where
  address : String
  topics : List String
  data : String
  blockNumber : String
  timeStamp : String
  gasPrice : String
  gasUsed : String
  logIndex : String
  transactionHash : String
  transactionIndex : String
deriving DecidableEq, Repr

/-! ## Windowed fetch orchestrator (`src/services/etherscan.service.ts`)

Both service methods run the loop

  for (let block = startblock; block <= endblock; block += W) {
    const start = block;
    const end = block + (W-1) < endblock ? block + (W-1) : endblock;
    const data = await fetch(start, end);
    result = [...result, ...data];
  }

with `W = 10000` for internal transactions and `W = 1000` for logs. -/

/-- The upper bound of one window: the source's ternary
`block + off < endblock ? block + off : endblock`. -/
def windowCap (block off e : Nat) : Nat :=
  if block + off < e then block + off else e

theorem windowCap_eq_min (block off e : Nat) :
    windowCap block off e = min (block + off) e := by
  unfold windowCap
  split <;> omega

/-- The sequence of `(start, end)` windows requested by the service loop,
reading `w` for the chunk size and `e` for `endblock`, starting the loop
variable at `block`.  The fuel argument only serves termination; one unit is
consumed per loop iteration, and `block` strictly increases by `w ≥ 1`, so
fuel `e + 1 - block` covers every iteration. -/
def chunkWindowsAux (w e : Nat) : Nat → Nat → List (Nat × Nat)
  | _, 0 => []
  | block, fuel + 1 =>
    if block ≤ e then
      (block, windowCap block (w - 1) e) :: chunkWindowsAux w e (block + w) fuel
    else []

/-- The windows requested by a service-level fetch over `[s, e]` with chunk
size `w`. -/
def chunkWindows (w e s : Nat) : List (Nat × Nat) :=
  chunkWindowsAux w e s (e + 1 - s)

/-- The accumulation loop of the service methods: per window, invoke the
client and append the returned records in order. -/
def serviceLoopAux {α : Type} (fetch : Nat → Nat → List α) (w e : Nat) :
    Nat → Nat → List α
  | _, 0 => []
  | block, fuel + 1 =>
    if block ≤ e then
      fetch block (windowCap block (w - 1) e) ++
        serviceLoopAux fetch w e (block + w) fuel
    else []

/-- A service-level windowed fetch over `[s, e]` with chunk size `w`. -/
def serviceLoop {α : Type} (fetch : Nat → Nat → List α) (w e s : Nat) :
    List α :=
  serviceLoopAux fetch w e s (e + 1 - s)

namespace EtherscanService

/-- `EtherscanService.getInternalTransactionsByAddress`: processes blocks in
chunks of 10,000, calling the client (`fetchAPI address start end`) once per
chunk and concatenating the results.  The client call is modelled as a total
function, which theorem `C8_never_throws` justifies. -/
def getInternalTransactionsByAddress
    (fetchAPI : String → Nat → Nat → List InternalTransaction)
    (address : String) (startblock endblock : Nat) :
    List InternalTransaction :=
  serviceLoop (fetchAPI address) 10000 endblock startblock

/-- `EtherscanService.getLogsByAddressTopic`: processes blocks in chunks of
1,000, calling the client (`fetchAPI address topic start end`) once per chunk
and concatenating the results. -/
def getLogsByAddressTopic
    (fetchAPI : String → String → Nat → Nat → List EtherscanEvent)
    (address topic : String) (startblock endblock : Nat) :
    List EtherscanEvent :=
  serviceLoop (fetchAPI address topic) 1000 endblock startblock

end EtherscanService

/-! ## Remote data source client (`src/api/etherscan.api.ts`)

One attempt of `getInternalTransactionsByAddress` / `getLogsByAddressTopic`
is an `axios.get` whose outcome is either a transport-level fault (the
promise rejects, or the body cannot be decoded) or a decoded response object
with `status`, `message` and `result` fields.  The body of the TS function is

    if (data.status === "0" && data.message.slice(0, 5) === "NOTOK") {
      await sleep(1000); return await this.<same>(same arguments);
    }
    if (data.status === "1") { return data.result; }
    return [];

wrapped in `try { ... } catch { console.warn(...); return []; }`. -/

/-- The JS value of the response's `message` field.  `str s` is a string
value; `notStr` models `undefined`, `null` or any other value on which
evaluating `.slice(0, 5)` throws a `TypeError`. -/
inductive MsgField where
  | str (s : String)
  | notStr
deriving DecidableEq, Repr

/-- A decoded response body.  `status = none` models an absent `status`
field (strict equality `undefined === "0"` is simply false).  The `result`
field is modelled as the record array the code trusts it to be. -/
structure RespData (α : Type) where
  status : Option String
  message : MsgField
  result : List α
deriving DecidableEq, Repr

/-- Outcome of one `axios.get` attempt. -/
inductive TransportEvent (α : Type) where
  | netError (msg : String)
  | resp (d : RespData α)
deriving DecidableEq, Repr

/-- Observable side effects of one client call: the HTTP request itself
(with the parameters it carries), the `sleep(1000)` backoff, and the
`console.warn` of the catch clause. -/
inductive ApiEvent (π : Type) where
  | request (p : π)
  | sleep (ms : Nat)
  | warn
deriving DecidableEq, Repr

/-- Classification of a decoded response by the body of the try block.
`Except.error` is a thrown `TypeError`: it arises exactly when
`status === "0"` holds and `message.slice` cannot be evaluated. -/
inductive BodyStep (α : Type) where
  | notok
  | success (items : List α)
  | empty
deriving DecidableEq, Repr

/-- The classification steps of the try block, in source order: the NOTOK
test (whose `&&` short-circuits, so `message` is only touched when
`status === "0"`), then the success test, then the fall-through `return []`. -/
def classifyResponse {α : Type} (d : RespData α) : Except String (BodyStep α) :=
  if d.status = some "0" then
    match d.message with
    | .str m =>
      if m.take 5 = "NOTOK" then .ok .notok
      else if d.status = some "1" then .ok (.success d.result) else .ok .empty
    | .notStr => .error "TypeError: data.message.slice is not a function"
  else if d.status = some "1" then .ok (.success d.result) else .ok .empty

/-- One client call with its unbounded NOTOK retry loop.  `t` maps the
attempt index to that attempt's transport outcome, `p` is the (immutable)
request parameter record — the recursive retry passes `p` unchanged, exactly
as the source re-passes `address`/`topic`/`startblock`/`endblock`.  The
result is the emitted event trace paired with `some (.ok records)` on normal
return; `none` models exhausting the fuel, i.e. an execution still inside the
retry loop (the source loop has no bound, so under perpetual NOTOK it never
returns).  An `Except.error` result would be an exception escaping to the
caller; the catch clause turns every thrown error into a warning plus an
empty list. -/
def apiFetchLoop {α π : Type} (t : Nat → TransportEvent α) (p : π) :
    Nat → Nat → List (ApiEvent π) × Option (Except String (List α))
  | _, 0 => ([], none)
  | attempt, fuel + 1 =>
    match t attempt with
    | .netError _ => ([.request p, .warn], some (.ok []))
    | .resp d =>
      match classifyResponse d with
      | .error _ => ([.request p, .warn], some (.ok []))
      | .ok .notok =>
        let rest := apiFetchLoop t p (attempt + 1) fuel
        (.request p :: .sleep 1000 :: rest.1, rest.2)
      | .ok (.success items) => ([.request p], some (.ok items))
      | .ok .empty => ([.request p], some (.ok []))

/-- The query parameters of one internal-transaction request
(`module=account&action=txlistinternal`). -/
structure InternalTxParams where
  address : String
  startblock : Nat
  endblock : Nat
deriving DecidableEq, Repr

/-- The query parameters of one log request (`module=logs&action=getLogs`). -/
structure LogParams where
  address : String
  topic : String
  fromBlock : Nat
  toBlock : Nat
deriving DecidableEq, Repr

namespace EtherscanAPI

/-- `EtherscanAPI.getInternalTransactionsByAddress`, starting at attempt 0. -/
def getInternalTransactionsByAddress
    (t : Nat → TransportEvent InternalTransaction)
    (address : String) (startblock endblock : Nat) (fuel : Nat) :
    List (ApiEvent InternalTxParams) ×
      Option (Except String (List InternalTransaction)) :=
  apiFetchLoop t ⟨address, startblock, endblock⟩ 0 fuel

/-- `EtherscanAPI.getLogsByAddressTopic`, starting at attempt 0. -/
def getLogsByAddressTopic
    (t : Nat → TransportEvent EtherscanEvent)
    (address topic : String) (startblock endblock : Nat) (fuel : Nat) :
    List (ApiEvent LogParams) ×
      Option (Except String (List EtherscanEvent)) :=
  apiFetchLoop t ⟨address, topic, startblock, endblock⟩ 0 fuel

end EtherscanAPI

/-! ## Latest-block lookup (`EtherscanAPI.getLatestBlock`)

    try {
      const response = await axios.get(...);
      if (response.data.result) { return parseInt(response.data.result, 16); }
      throw new Error("Failed to get latest block number");
    } catch (error) {
      throw new Error(`Error fetching latest block: ${error}`);
    }

The `result` field is a hex string when present; `none` models an absent
field.  JS truthiness of a string is non-emptiness. -/

/-- Transport outcome of the latest-block request: a rejected request, or a
response whose `result` field is the given optional string. -/
inductive ProxyTransport where
  | netError (msg : String)
  | resp (result : Option String)
deriving DecidableEq, Repr

/-- The numeric value of one hex digit, per JS `parseInt` with radix 16. -/
def hexDigitVal (c : Char) : Option Nat :=
  if '0' ≤ c ∧ c ≤ '9' then some (c.toNat - '0'.toNat)
  else if 'a' ≤ c ∧ c ≤ 'f' then some (c.toNat - 'a'.toNat + 10)
  else if 'A' ≤ c ∧ c ≤ 'F' then some (c.toNat - 'A'.toNat + 10)
  else none

/-- The longest prefix of hex digits, as digit values. -/
def takeHexDigits : List Char → List Nat
  | [] => []
  | c :: rest =>
    match hexDigitVal c with
    | some v => v :: takeHexDigits rest
    | none => []

/-- JS `parseInt(s, 16)`: skip leading whitespace, an optional sign, an
optional `0x`/`0X` prefix, then read the longest prefix of hex digits;
`none` models `NaN` (no digit consumed). -/
def parseInt16 (s : String) : Option Int :=
  let cs := s.toList.dropWhile fun c =>
    c = ' ' ∨ c = '\t' ∨ c = '\n' ∨ c = '\r'
  let sgncs : Int × List Char :=
    match cs with
    | '-' :: rest => (-1, rest)
    | '+' :: rest => (1, rest)
    | _ => (1, cs)
  let body : List Char :=
    match sgncs.2 with
    | '0' :: 'x' :: rest => rest
    | '0' :: 'X' :: rest => rest
    | _ => sgncs.2
  let ds := takeHexDigits body
  if ds = [] then none
  else some (sgncs.1 * (ds.foldl (fun acc d => acc * 16 + d) 0 : Nat))

namespace EtherscanAPI

/-- `EtherscanAPI.getLatestBlock`.  `Except.error` is the rethrown fatal
error (not retried, propagates to the caller); `.ok none` is a returned JS
`NaN`; `.ok (some n)` a returned number. -/
def getLatestBlock (t : ProxyTransport) : Except String (Option Int) :=
  match t with
  | .netError m => .error ("Error fetching latest block: " ++ m)
  | .resp r =>
    match r with
    | some s =>
      if s ≠ "" then .ok (parseInt16 s)
      else .error
        "Error fetching latest block: Error: Failed to get latest block number"
    | none => .error
        "Error fetching latest block: Error: Failed to get latest block number"

end EtherscanAPI

/-! ## Classification predicates -/

/-- A transport outcome that the client classifies as a transient failure:
a decoded response with `status === "0"` whose `message` is a string whose
first five characters are `NOTOK`. -/
def isTransientFailure {α : Type} : TransportEvent α → Bool
  | .netError _ => false
  | .resp d =>
    (d.status == some "0") &&
      match d.message with
      | .str m => m.take 5 == "NOTOK"
      | .notStr => false

/-- The event trace of `n` transient failures followed by one final attempt:
each failed request is followed by the 1000 ms backoff sleep and an
identical request. -/
def retryTrace {π : Type} (p : π) : Nat → List (ApiEvent π)
  | 0 => [.request p]
  | n + 1 => .request p :: .sleep 1000 :: retryTrace p n

/-! ## Concrete sample data used by the witness theorems -/

/-- A sample internal-transaction record. -/
def sampleTx : InternalTransaction :=
  { blockNumber := "17000001", timeStamp := "1700000000", hash := "0xabc"
    fromAddr := "0xf", toAddr := "0xt", value := "42", contractAddress := ""
    input := "0x", type := "call", gas := "21000", gasUsed := "21000"
    traceId := "0", isError := "0", errCode := "" }

/-- A sample event-log record. -/
def sampleEvent : EtherscanEvent :=
  { address := "0xa", topics := ["0xt"], data := "0x"
    blockNumber := "17000002", timeStamp := "1700000001", gasPrice := "1"
    gasUsed := "21000", logIndex := "0", transactionHash := "0xh"
    transactionIndex := "1" }

/-- A response that the client classifies as a transient failure. -/
def notokResp (α : Type) : TransportEvent α :=
  .resp { status := some "0", message := .str "NOTOK - rate limit reached"
          result := [] }

/-- Oracle: one transient failure, then success carrying `[sampleTx]`. -/
def c2t1 : Nat → TransportEvent InternalTransaction := fun k =>
  if k = 0 then notokResp _
  else .resp { status := some "1", message := .str "OK", result := [sampleTx] }

/-- The successful response of `c2t1`. -/
def c2d1 : RespData InternalTransaction :=
  { status := some "1", message := .str "OK", result := [sampleTx] }

/-- Oracle: two transient failures, then success carrying `[sampleEvent]`. -/
def c2t2 : Nat → TransportEvent EtherscanEvent := fun k =>
  if k ≤ 1 then notokResp _
  else .resp { status := some "1", message := .str "OK"
               result := [sampleEvent] }

/-- The successful response of `c2t2`. -/
def c2d2 : RespData EtherscanEvent :=
  { status := some "1", message := .str "OK", result := [sampleEvent] }

/-- Oracle: every attempt is a transient failure. -/
def c2t3 : Nat → TransportEvent InternalTransaction := fun _ => notokResp _

/-- An event-log record at block `n`, used by the C4 scenario. -/
def mkWindowEvent (n : Nat) : EtherscanEvent :=
  { address := "0xa", topics := ["0xt"], data := "0x"
    blockNumber := toString n, timeStamp := "0", gasPrice := "0"
    gasUsed := "0", logIndex := "0", transactionHash := "0xh"
    transactionIndex := "0" }

/-- The per-window client results of the C4 scenario: the middle window
`[1000, 1999]` is empty, every other window returns five records at its
first five block numbers. -/
def exampleLogFetch : String → String → Nat → Nat → List EtherscanEvent :=
  fun _ _ s _ =>
    if s = 1000 then []
    else [mkWindowEvent s, mkWindowEvent (s + 1), mkWindowEvent (s + 2),
      mkWindowEvent (s + 3), mkWindowEvent (s + 4)]

/-- Decimal reading of a digit string (accumulator form). -/
def decNat : List Char → Nat → Nat
  | [], acc => acc
  | c :: rest, acc =>
    if '0' ≤ c ∧ c ≤ '9' then decNat rest (acc * 10 + (c.toNat - '0'.toNat))
    else acc

/-- The block number a record came from, for stating block-ascending order. -/
def eventBlock (r : EtherscanEvent) : Nat :=
  decNat r.blockNumber.toList 0

/-! ## Lemmas on the window decomposition -/

theorem chunkWindowsAux_nil {w e block fuel : Nat} (h : e < block) :
    chunkWindowsAux w e block fuel = [] := by
  cases fuel with
  | zero => rfl
  | succ f =>
    unfold chunkWindowsAux
    rw [if_neg (by omega)]

theorem serviceLoopAux_eq_flatMap {α : Type} (fetch : Nat → Nat → List α)
    (w e : Nat) :
    ∀ fuel block, serviceLoopAux fetch w e block fuel =
      (chunkWindowsAux w e block fuel).flatMap fun p => fetch p.1 p.2 := by
  intro fuel
  induction fuel with
  | zero => intro block; rfl
  | succ f ih =>
    intro block
    unfold serviceLoopAux chunkWindowsAux
    split
    · simp [ih]
    · rfl

theorem serviceLoop_eq_flatMap {α : Type} (fetch : Nat → Nat → List α)
    (w e s : Nat) :
    serviceLoop fetch w e s =
      (chunkWindows w e s).flatMap fun p => fetch p.1 p.2 :=
  serviceLoopAux_eq_flatMap fetch w e (e + 1 - s) s

theorem chunkWindowsAux_mem_bounds {w e : Nat} :
    ∀ fuel block p, p ∈ chunkWindowsAux w e block fuel →
      block ≤ p.1 ∧ p.1 ≤ p.2 ∧ p.2 ≤ e := by
  intro fuel
  induction fuel with
  | zero => intro block p hp; simp [chunkWindowsAux] at hp
  | succ f ih =>
    intro block p hp
    unfold chunkWindowsAux at hp
    by_cases hg : block ≤ e
    · rw [if_pos hg] at hp
      rcases List.mem_cons.mp hp with h | h
      · subst h
        simp only [windowCap_eq_min]
        omega
      · have := ih (block + w) p h
        omega
    · rw [if_neg hg] at hp
      simp at hp

theorem chunkWindowsAux_length {w e : Nat} (hw : 0 < w) :
    ∀ fuel block, block ≤ e → e + 1 - block ≤ fuel →
      (chunkWindowsAux w e block fuel).length = (e - block + w) / w := by
  intro fuel
  induction fuel with
  | zero => intro block h1 h2; omega
  | succ f ih =>
    intro block h1 h2
    unfold chunkWindowsAux
    rw [if_pos h1]
    by_cases hb : block + w ≤ e
    · have hnum : e - (block + w) + w = e - block := by omega
      rw [List.length_cons, ih (block + w) hb (by omega), hnum,
        Nat.add_div_right _ hw]
    · rw [chunkWindowsAux_nil (by omega), List.length_cons, List.length_nil,
        Nat.add_div_right _ hw, Nat.div_eq_of_lt (by omega)]

theorem chunkWindowsAux_mem_iff {w e : Nat} (hw : 0 < w) (b : Nat) :
    ∀ fuel block, e + 1 - block ≤ fuel →
      ((∃ p ∈ chunkWindowsAux w e block fuel, p.1 ≤ b ∧ b ≤ p.2) ↔
        (block ≤ b ∧ b ≤ e)) := by
  intro fuel
  induction fuel with
  | zero =>
    intro block hf
    simp [chunkWindowsAux]
    omega
  | succ f ih =>
    intro block hf
    by_cases hg : block ≤ e
    · unfold chunkWindowsAux
      rw [if_pos hg, List.exists_mem_cons_iff, ih (block + w) (by omega)]
      simp only [windowCap_eq_min]
      omega
    · rw [chunkWindowsAux_nil (by omega)]
      simp
      omega

theorem chunkWindowsAux_chain {w e : Nat} (hw : 0 < w) :
    ∀ fuel block, List.Chain' (fun p q : Nat × Nat => p.2 + 1 = q.1)
      (chunkWindowsAux w e block fuel) := by
  intro fuel
  induction fuel with
  | zero => intro block; simp [chunkWindowsAux]
  | succ f ih =>
    intro block
    unfold chunkWindowsAux
    split
    · rename_i hg
      refine List.chain'_cons'.mpr ⟨?_, ih (block + w)⟩
      intro q hq
      rcases Nat.lt_or_ge e (block + w) with hb | hb
      · rw [chunkWindowsAux_nil hb] at hq
        simp at hq
      · cases f with
        | zero => simp [chunkWindowsAux] at hq
        | succ f2 =>
          unfold chunkWindowsAux at hq
          rw [if_pos (by omega)] at hq
          simp only [List.head?_cons, Option.mem_def, Option.some.injEq] at hq
          rw [← hq]
          show windowCap block (w - 1) e + 1 = block + w
          rw [windowCap_eq_min]
          omega
    · simp

theorem chunkWindowsAux_pairwise {w e : Nat} (hw : 0 < w) :
    ∀ fuel block, List.Pairwise (fun p q : Nat × Nat => p.2 < q.1)
      (chunkWindowsAux w e block fuel) := by
  intro fuel
  induction fuel with
  | zero => intro block; simp [chunkWindowsAux]
  | succ f ih =>
    intro block
    unfold chunkWindowsAux
    split
    · refine List.Pairwise.cons ?_ (ih (block + w))
      intro q hq
      have hqb := chunkWindowsAux_mem_bounds f (block + w) q hq
      show windowCap block (w - 1) e < q.1
      rw [windowCap_eq_min]
      omega
    · simp

theorem chunkWindows_length {w s e : Nat} (hw : 0 < w) (hse : s ≤ e) :
    (chunkWindows w e s).length = (e - s + 1 + (w - 1)) / w := by
  unfold chunkWindows
  rw [chunkWindowsAux_length hw (e + 1 - s) s hse (le_refl _)]
  congr 1
  omega

theorem chunkWindows_mem_iff {w s e : Nat} (hw : 0 < w) (b : Nat) :
    (∃ p ∈ chunkWindows w e s, p.1 ≤ b ∧ b ≤ p.2) ↔ (s ≤ b ∧ b ≤ e) :=
  chunkWindowsAux_mem_iff hw b (e + 1 - s) s (le_refl _)

theorem chunkWindows_chain {w s e : Nat} (hw : 0 < w) :
    List.Chain' (fun p q : Nat × Nat => p.2 + 1 = q.1) (chunkWindows w e s) :=
  chunkWindowsAux_chain hw (e + 1 - s) s

theorem chunkWindows_pairwise {w s e : Nat} (hw : 0 < w) :
    List.Pairwise (fun p q : Nat × Nat => p.2 < q.1) (chunkWindows w e s) :=
  chunkWindowsAux_pairwise hw (e + 1 - s) s

theorem chunkWindows_mem_bounds {w s e : Nat} {p : Nat × Nat}
    (hp : p ∈ chunkWindows w e s) : s ≤ p.1 ∧ p.1 ≤ p.2 ∧ p.2 ≤ e :=
  chunkWindowsAux_mem_bounds (e + 1 - s) s p hp

/-! ## Lemmas on the client retry loop -/

theorem classify_of_transient {α : Type} {d : RespData α}
    (h : isTransientFailure (TransportEvent.resp d) = true) :
    classifyResponse d = .ok .notok := by
  unfold isTransientFailure at h
  rw [Bool.and_eq_true] at h
  obtain ⟨h1, h2⟩ := h
  rw [beq_iff_eq] at h1
  unfold classifyResponse
  rw [if_pos h1]
  cases hm : d.message with
  | str m =>
    rw [hm] at h2
    simp only [beq_iff_eq] at h2
    simp [h2]
  | notStr =>
    rw [hm] at h2
    simp at h2

theorem apiFetchLoop_transient_step {α π : Type} {t : Nat → TransportEvent α}
    (p : π) {a : Nat} (fuel : Nat) (h : isTransientFailure (t a) = true) :
    apiFetchLoop t p a (fuel + 1) =
      (.request p :: .sleep 1000 :: (apiFetchLoop t p (a + 1) fuel).1,
        (apiFetchLoop t p (a + 1) fuel).2) := by
  cases ht : t a with
  | netError m =>
    rw [ht] at h
    simp [isTransientFailure] at h
  | resp d =>
    rw [ht] at h
    simp only [apiFetchLoop, ht, classify_of_transient h]

theorem apiFetchLoop_success_step {α π : Type} {t : Nat → TransportEvent α}
    (p : π) {a : Nat} (fuel : Nat) {d : RespData α} (ht : t a = .resp d)
    (h1 : d.status = some "1") :
    apiFetchLoop t p a (fuel + 1) = ([.request p], some (.ok d.result)) := by
  have hc : classifyResponse d = .ok (.success d.result) := by
    unfold classifyResponse
    rw [if_neg (by simp [h1]), if_pos h1]
  simp only [apiFetchLoop, ht, hc]

theorem apiFetchLoop_retries {α π : Type} (t : Nat → TransportEvent α)
    (p : π) :
    ∀ (n a fuel : Nat) (d : RespData α),
      (∀ k, k < n → isTransientFailure (t (a + k)) = true) →
      t (a + n) = .resp d → d.status = some "1" → n < fuel →
      apiFetchLoop t p a fuel = (retryTrace p n, some (.ok d.result)) := by
  intro n
  induction n with
  | zero =>
    intro a fuel d _ ht h1 hf
    obtain ⟨f, rfl⟩ : ∃ f, fuel = f + 1 := ⟨fuel - 1, by omega⟩
    rw [apiFetchLoop_success_step p f (by simpa using ht) h1]
    rfl
  | succ n ih =>
    intro a fuel d hk ht h1 hf
    obtain ⟨f, rfl⟩ : ∃ f, fuel = f + 1 := ⟨fuel - 1, by omega⟩
    rw [apiFetchLoop_transient_step p f (by simpa using hk 0 (by omega))]
    rw [ih (a + 1) f d
      (fun k hk2 => by
        have h := hk (k + 1) (by omega)
        rwa [show a + (k + 1) = a + 1 + k by omega] at h)
      (by rwa [show a + 1 + n = a + (n + 1) by omega]) h1 (by omega)]
    rfl

theorem apiFetchLoop_diverges {α π : Type} {t : Nat → TransportEvent α}
    (p : π) (h : ∀ k, isTransientFailure (t k) = true) :
    ∀ fuel a, (apiFetchLoop t p a fuel).2 = none := by
  intro fuel
  induction fuel with
  | zero => intro a; rfl
  | succ f ih =>
    intro a
    rw [apiFetchLoop_transient_step p f (h a)]
    exact ih (a + 1)

theorem apiFetchLoop_no_exception {α π : Type} (t : Nat → TransportEvent α)
    (p : π) : ∀ fuel a, (apiFetchLoop t p a fuel).2 = none ∨
      ∃ l, (apiFetchLoop t p a fuel).2 = some (.ok l) := by
  intro fuel
  induction fuel with
  | zero => intro a; left; rfl
  | succ f ih =>
    intro a
    cases ht : t a with
    | netError m => exact Or.inr ⟨[], by simp only [apiFetchLoop, ht]⟩
    | resp d =>
      cases hc : classifyResponse d with
      | error err => exact Or.inr ⟨[], by simp only [apiFetchLoop, ht, hc]⟩
      | ok step =>
        cases step with
        | notok =>
          have hstep : (apiFetchLoop t p a (f + 1)).2 =
              (apiFetchLoop t p (a + 1) f).2 := by
            simp only [apiFetchLoop, ht, hc]
          rw [hstep]
          exact ih (a + 1)
        | success items =>
          exact Or.inr ⟨items, by simp only [apiFetchLoop, ht, hc]⟩
        | empty => exact Or.inr ⟨[], by simp only [apiFetchLoop, ht, hc]⟩

theorem apiFetchLoop_netError_step {α π : Type} {t : Nat → TransportEvent α}
    (p : π) {a : Nat} (fuel : Nat) {m : String} (ht : t a = .netError m) :
    apiFetchLoop t p a (fuel + 1) = ([.request p, .warn], some (.ok [])) := by
  simp only [apiFetchLoop, ht]

theorem chunkWindows_single {w : Nat} (hw : 0 < w) (s : Nat) :
    chunkWindows w s s = [(s, s)] := by
  unfold chunkWindows
  rw [show s + 1 - s = 1 by omega]
  unfold chunkWindowsAux
  rw [if_pos (le_refl s)]
  unfold windowCap
  rw [if_neg (by omega), chunkWindowsAux_nil (by omega)]

theorem chunkWindows_nil {w s e : Nat} (h : e < s) :
    chunkWindows w e s = [] :=
  chunkWindowsAux_nil h

theorem serviceLoop_single {α : Type} (fetch : Nat → Nat → List α)
    {w : Nat} (hw : 0 < w) (s : Nat) : serviceLoop fetch w s s = fetch s s := by
  rw [serviceLoop_eq_flatMap, chunkWindows_single hw]
  simp

/-! ## Claim theorems -/

/-- C1: for every block range with `start ≤ end`, each windowed fetch
operation (internal transactions, window size 10000; logs, window size 1000)
decomposes the range into contiguous, non-overlapping windows whose union is
exactly `[start, end]`, processed in strictly ascending block order, with
exactly `ceil((end − start + 1) / windowSize)` windows; the service result is
the per-window client results concatenated in that window order. -/
theorem C1_window_partition (s e : Nat) (hse : s ≤ e) :
    ((chunkWindows 10000 e s).length = (e - s + 1 + 9999) / 10000
      ∧ (∀ b, (∃ p ∈ chunkWindows 10000 e s, p.1 ≤ b ∧ b ≤ p.2) ↔
          (s ≤ b ∧ b ≤ e))
      ∧ List.Chain' (fun p q : Nat × Nat => p.2 + 1 = q.1)
          (chunkWindows 10000 e s)
      ∧ List.Pairwise (fun p q : Nat × Nat => p.2 < q.1)
          (chunkWindows 10000 e s)
      ∧ ∀ (f : String → Nat → Nat → List InternalTransaction) (addr : String),
          EtherscanService.getInternalTransactionsByAddress f addr s e =
            (chunkWindows 10000 e s).flatMap fun p => f addr p.1 p.2)
    ∧ ((chunkWindows 1000 e s).length = (e - s + 1 + 999) / 1000
      ∧ (∀ b, (∃ p ∈ chunkWindows 1000 e s, p.1 ≤ b ∧ b ≤ p.2) ↔
          (s ≤ b ∧ b ≤ e))
      ∧ List.Chain' (fun p q : Nat × Nat => p.2 + 1 = q.1)
          (chunkWindows 1000 e s)
      ∧ List.Pairwise (fun p q : Nat × Nat => p.2 < q.1)
          (chunkWindows 1000 e s)
      ∧ ∀ (g : String → String → Nat → Nat → List EtherscanEvent)
          (addr topic : String),
          EtherscanService.getLogsByAddressTopic g addr topic s e =
            (chunkWindows 1000 e s).flatMap fun p => g addr topic p.1 p.2) := by
  refine ⟨⟨?_, ?_, ?_, ?_, ?_⟩, ?_, ?_, ?_, ?_, ?_⟩
  · exact chunkWindows_length (by norm_num) hse
  · exact fun b => chunkWindows_mem_iff (by norm_num) b
  · exact chunkWindows_chain (by norm_num)
  · exact chunkWindows_pairwise (by norm_num)
  · exact fun f addr => serviceLoop_eq_flatMap (f addr) 10000 e s
  · exact chunkWindows_length (by norm_num) hse
  · exact fun b => chunkWindows_mem_iff (by norm_num) b
  · exact chunkWindows_chain (by norm_num)
  · exact chunkWindows_pairwise (by norm_num)
  · exact fun g addr topic => serviceLoop_eq_flatMap (g addr topic) 1000 e s

/-- Witness for C1 at the concrete range `[0, 25000]`. -/
theorem C1_window_partition_witness :
    (0 : Nat) ≤ 25000 ∧
    (((chunkWindows 10000 25000 0).length = (25000 - 0 + 1 + 9999) / 10000
      ∧ (∀ b, (∃ p ∈ chunkWindows 10000 25000 0, p.1 ≤ b ∧ b ≤ p.2) ↔
          (0 ≤ b ∧ b ≤ 25000))
      ∧ List.Chain' (fun p q : Nat × Nat => p.2 + 1 = q.1)
          (chunkWindows 10000 25000 0)
      ∧ List.Pairwise (fun p q : Nat × Nat => p.2 < q.1)
          (chunkWindows 10000 25000 0)
      ∧ ∀ (f : String → Nat → Nat → List InternalTransaction) (addr : String),
          EtherscanService.getInternalTransactionsByAddress f addr 0 25000 =
            (chunkWindows 10000 25000 0).flatMap fun p => f addr p.1 p.2)
    ∧ ((chunkWindows 1000 25000 0).length = (25000 - 0 + 1 + 999) / 1000
      ∧ (∀ b, (∃ p ∈ chunkWindows 1000 25000 0, p.1 ≤ b ∧ b ≤ p.2) ↔
          (0 ≤ b ∧ b ≤ 25000))
      ∧ List.Chain' (fun p q : Nat × Nat => p.2 + 1 = q.1)
          (chunkWindows 1000 25000 0)
      ∧ List.Pairwise (fun p q : Nat × Nat => p.2 < q.1)
          (chunkWindows 1000 25000 0)
      ∧ ∀ (g : String → String → Nat → Nat → List EtherscanEvent)
          (addr topic : String),
          EtherscanService.getLogsByAddressTopic g addr topic 0 25000 =
            (chunkWindows 1000 25000 0).flatMap fun p => g addr topic p.1 p.2)) :=
  ⟨by decide, C1_window_partition 0 25000 (by decide)⟩

/-- C7: for every single-block range (`start = end`) each windowed fetch
operation generates exactly one window `[start, start]` and issues exactly
one client request, whose result is returned unchanged. -/
theorem C7_single_block (s : Nat)
    (f : String → Nat → Nat → List InternalTransaction)
    (g : String → String → Nat → Nat → List EtherscanEvent)
    (addr topic : String) :
    chunkWindows 10000 s s = [(s, s)]
    ∧ chunkWindows 1000 s s = [(s, s)]
    ∧ EtherscanService.getInternalTransactionsByAddress f addr s s =
        f addr s s
    ∧ EtherscanService.getLogsByAddressTopic g addr topic s s =
        g addr topic s s :=
  ⟨chunkWindows_single (by norm_num) s, chunkWindows_single (by norm_num) s,
    serviceLoop_single (f addr) (by norm_num) s,
    serviceLoop_single (g addr topic) (by norm_num) s⟩

/-- C9: for every range with `start > end` each windowed fetch operation
generates no window at all, issues no client request, and returns the empty
sequence. -/
theorem C9_inverted_range (s e : Nat)
    (f : String → Nat → Nat → List InternalTransaction)
    (g : String → String → Nat → Nat → List EtherscanEvent)
    (addr topic : String) (h : e < s) :
    chunkWindows 10000 e s = []
    ∧ chunkWindows 1000 e s = []
    ∧ EtherscanService.getInternalTransactionsByAddress f addr s e = []
    ∧ EtherscanService.getLogsByAddressTopic g addr topic s e = [] := by
  refine ⟨chunkWindows_nil h, chunkWindows_nil h, ?_, ?_⟩
  · show serviceLoop (f addr) 10000 e s = []
    rw [serviceLoop_eq_flatMap, chunkWindows_nil h]
    rfl
  · show serviceLoop (g addr topic) 1000 e s = []
    rw [serviceLoop_eq_flatMap, chunkWindows_nil h]
    rfl

/-- Witness for C9 at the concrete inverted range `[1, 0]`. -/
theorem C9_inverted_range_witness :
    (0 : Nat) < 1 ∧
    (chunkWindows 10000 0 1 = []
    ∧ chunkWindows 1000 0 1 = []
    ∧ EtherscanService.getInternalTransactionsByAddress
        (fun _ _ _ => [sampleTx]) "0xa" 1 0 = []
    ∧ EtherscanService.getLogsByAddressTopic
        (fun _ _ _ _ => [sampleEvent]) "0xa" "0xt" 1 0 = []) :=
  ⟨by decide,
    C9_inverted_range 1 0 (fun _ _ _ => [sampleTx])
      (fun _ _ _ _ => [sampleEvent]) "0xa" "0xt" (by decide)⟩

/-- C2: for the per-window client operations, a response with failure status
`"0"` whose message starts with `NOTOK` triggers the 1000 ms backoff sleep
followed by a retry of the identical request (the same parameter record
reappears in the trace); the retry count is unbounded — for every `n`, `n`
consecutive transient failures followed by a success yield `n` backoff-retry
cycles and the retried result is returned; under perpetual transient failure
the call never returns. -/
theorem C2_transient_retry
    (t1 : Nat → TransportEvent InternalTransaction)
    (t2 : Nat → TransportEvent EtherscanEvent)
    (t3 : Nat → TransportEvent InternalTransaction)
    (addr topic : String) (s e : Nat) (n1 n2 fuel1 fuel2 : Nat)
    (d1 : RespData InternalTransaction) (d2 : RespData EtherscanEvent)
    (h1 : ∀ k, k < n1 → isTransientFailure (t1 k) = true)
    (ht1 : t1 n1 = .resp d1) (hs1 : d1.status = some "1") (hf1 : n1 < fuel1)
    (h2 : ∀ k, k < n2 → isTransientFailure (t2 k) = true)
    (ht2 : t2 n2 = .resp d2) (hs2 : d2.status = some "1") (hf2 : n2 < fuel2)
    (h3 : ∀ k, isTransientFailure (t3 k) = true) :
    EtherscanAPI.getInternalTransactionsByAddress t1 addr s e fuel1 =
      (retryTrace ⟨addr, s, e⟩ n1, some (.ok d1.result))
    ∧ EtherscanAPI.getLogsByAddressTopic t2 addr topic s e fuel2 =
      (retryTrace ⟨addr, topic, s, e⟩ n2, some (.ok d2.result))
    ∧ ∀ fuel,
        (EtherscanAPI.getInternalTransactionsByAddress t3 addr s e fuel).2 =
          none := by
  refine ⟨?_, ?_, ?_⟩
  · exact apiFetchLoop_retries t1 _ n1 0 fuel1 d1
      (fun k hk => by simpa using h1 k hk) (by simpa using ht1) hs1 hf1
  · exact apiFetchLoop_retries t2 _ n2 0 fuel2 d2
      (fun k hk => by simpa using h2 k hk) (by simpa using ht2) hs2 hf2
  · exact fun fuel => apiFetchLoop_diverges _ h3 fuel 0

/-- Witness for C2: one transient failure then success for internal
transactions, two for logs, and a perpetually failing oracle. -/
theorem C2_transient_retry_witness :
    (∀ k, k < 1 → isTransientFailure (c2t1 k) = true)
    ∧ c2t1 1 = .resp c2d1 ∧ c2d1.status = some "1" ∧ 1 < 2
    ∧ (∀ k, k < 2 → isTransientFailure (c2t2 k) = true)
    ∧ c2t2 2 = .resp c2d2 ∧ c2d2.status = some "1" ∧ 2 < 3
    ∧ (∀ k, isTransientFailure (c2t3 k) = true)
    ∧ EtherscanAPI.getInternalTransactionsByAddress c2t1 "0xa" 0 9 2 =
        (retryTrace ⟨"0xa", 0, 9⟩ 1, some (.ok [sampleTx]))
    ∧ EtherscanAPI.getLogsByAddressTopic c2t2 "0xa" "0xt" 0 9 3 =
        (retryTrace ⟨"0xa", "0xt", 0, 9⟩ 2, some (.ok [sampleEvent]))
    ∧ ∀ fuel,
        (EtherscanAPI.getInternalTransactionsByAddress c2t3 "0xa" 0 9
          fuel).2 = none := by
  have h := C2_transient_retry c2t1 c2t2 c2t3 "0xa" "0xt" 0 9 1 2 2 3 c2d1
    c2d2 (by decide) (by decide) (by decide) (by decide) (by decide)
    (by decide) (by decide) (by decide) (fun _ => rfl)
  exact ⟨by decide, by decide, by decide, by decide, by decide, by decide,
    by decide, by decide, fun _ => rfl, h.1, h.2.1, h.2.2⟩

/-- C3 counterexample: the response result `"xyz"` carries no decodable hex
value (`parseInt` yields `NaN`), yet `getLatestBlock` does not raise the
fatal error: it returns normally (with `NaN`), refuting "raises a fatal
error exactly when the response carries no decodable result". -/
theorem C3_counterexample :
    parseInt16 "xyz" = none
    ∧ EtherscanAPI.getLatestBlock (.resp (some "xyz")) = .ok none :=
  ⟨rfl, rfl⟩

/-- C3 as amended: `"0x10"` decodes to 16; `getLatestBlock` raises the fatal
error (which propagates to the caller — the function has no retry) exactly
when the response carries no result value (the field is absent or the empty
string) or the transport faults; for any nonempty result string it returns
the `parseInt` decoding — `NaN` when undecodable, never a silent 0. -/
theorem C3_latest_block_amended :
    parseInt16 "0x10" = some 16
    ∧ (∀ r : Option String,
        (∃ err, EtherscanAPI.getLatestBlock (.resp r) = .error err) ↔
          (r = none ∨ r = some ""))
    ∧ (∀ m, ∃ err, EtherscanAPI.getLatestBlock (.netError m) = .error err)
    ∧ (∀ s, s ≠ "" →
        EtherscanAPI.getLatestBlock (.resp (some s)) = .ok (parseInt16 s)) := by
  refine ⟨rfl, ?_, fun m => ⟨_, rfl⟩, ?_⟩
  · intro r
    constructor
    · rintro ⟨err, herr⟩
      match r with
      | none => exact Or.inl rfl
      | some str =>
        by_cases hs : str = ""
        · exact Or.inr (by rw [hs])
        · exfalso
          simp only [EtherscanAPI.getLatestBlock] at herr
          rw [if_pos hs] at herr
          exact Except.noConfusion herr
    · rintro (rfl | rfl)
      · exact ⟨_, rfl⟩
      · exact ⟨_, rfl⟩
  · intro str hs
    simp only [EtherscanAPI.getLatestBlock]
    rw [if_pos hs]

/-- Witness for the amended C3 at the concrete input `"0x10"`. -/
theorem C3_latest_block_amended_witness :
    "0x10" ≠ ""
    ∧ EtherscanAPI.getLatestBlock (.resp (some "0x10")) =
        .ok (parseInt16 "0x10") :=
  ⟨by decide, C3_latest_block_amended.2.2.2 "0x10" (by decide)⟩

/-- C4: in a windowed fetch, a window whose client call returns an empty
sequence contributes zero records and does not stop later windows: the
output is the concatenation of the per-window results in window order.  For
the concrete range `[0, 2999]` at window size 1000 there are three windows;
with the middle window empty and the other two returning five records each,
the accumulated output has exactly 10 records in block-ascending order. -/
theorem C4_empty_window_concat :
    (∀ (f : String → Nat → Nat → List InternalTransaction) (addr : String)
        (s e : Nat),
      EtherscanService.getInternalTransactionsByAddress f addr s e =
        (chunkWindows 10000 e s).flatMap fun p => f addr p.1 p.2)
    ∧ (∀ (g : String → String → Nat → Nat → List EtherscanEvent)
        (addr topic : String) (s e : Nat),
      EtherscanService.getLogsByAddressTopic g addr topic s e =
        (chunkWindows 1000 e s).flatMap fun p => g addr topic p.1 p.2)
    ∧ chunkWindows 1000 2999 0 = [(0, 999), (1000, 1999), (2000, 2999)]
    ∧ exampleLogFetch "0xa" "0xt" 1000 1999 = []
    ∧ (EtherscanService.getLogsByAddressTopic exampleLogFetch
        "0xa" "0xt" 0 2999).length = 10
    ∧ List.Pairwise (fun r q => eventBlock r ≤ eventBlock q)
        (EtherscanService.getLogsByAddressTopic exampleLogFetch
          "0xa" "0xt" 0 2999) := by
  refine ⟨?_, ?_, by decide, by decide, by decide, by decide⟩
  · exact fun f addr s e => serviceLoop_eq_flatMap (f addr) 10000 e s
  · exact fun g addr topic s e =>
      serviceLoop_eq_flatMap (g addr topic) 1000 e s

/-- C5: a transport-level fault during a windowed request is caught, logged
as a warning, and yields an empty sequence for that window, returned
normally (never an exception); the orchestrator concatenates every window's
result, so the remaining windows are still processed. -/
theorem C5_transport_fault
    (t1 : Nat → TransportEvent InternalTransaction)
    (t2 : Nat → TransportEvent EtherscanEvent)
    (addr topic : String) (s e : Nat) (m1 m2 : String) (fuel1 fuel2 : Nat)
    (ht1 : t1 0 = .netError m1) (hf1 : 0 < fuel1)
    (ht2 : t2 0 = .netError m2) (hf2 : 0 < fuel2) :
    EtherscanAPI.getInternalTransactionsByAddress t1 addr s e fuel1 =
      ([.request ⟨addr, s, e⟩, .warn], some (.ok []))
    ∧ EtherscanAPI.getLogsByAddressTopic t2 addr topic s e fuel2 =
      ([.request ⟨addr, topic, s, e⟩, .warn], some (.ok []))
    ∧ ∀ (g : String → String → Nat → Nat → List EtherscanEvent)
        (addr2 topic2 : String) (s2 e2 : Nat),
        EtherscanService.getLogsByAddressTopic g addr2 topic2 s2 e2 =
          (chunkWindows 1000 e2 s2).flatMap fun p => g addr2 topic2 p.1 p.2 := by
  refine ⟨?_, ?_, ?_⟩
  · obtain ⟨f, rfl⟩ : ∃ f, fuel1 = f + 1 := ⟨fuel1 - 1, by omega⟩
    exact apiFetchLoop_netError_step _ f ht1
  · obtain ⟨f, rfl⟩ : ∃ f, fuel2 = f + 1 := ⟨fuel2 - 1, by omega⟩
    exact apiFetchLoop_netError_step _ f ht2
  · exact fun g addr2 topic2 s2 e2 =>
      serviceLoop_eq_flatMap (g addr2 topic2) 1000 e2 s2

/-- Witness for C5: a network error on the only attempt. -/
theorem C5_transport_fault_witness :
    (fun _ : Nat => TransportEvent.netError (α := InternalTransaction)
      "ECONNRESET") 0 = .netError "ECONNRESET"
    ∧ (0 : Nat) < 1
    ∧ (fun _ : Nat => TransportEvent.netError (α := EtherscanEvent)
      "socket hang up") 0 = .netError "socket hang up"
    ∧ EtherscanAPI.getInternalTransactionsByAddress
        (fun _ => .netError "ECONNRESET") "0xa" 0 9 1 =
        ([.request ⟨"0xa", 0, 9⟩, .warn], some (.ok []))
    ∧ EtherscanAPI.getLogsByAddressTopic
        (fun _ => .netError "socket hang up") "0xa" "0xt" 0 9 1 =
        ([.request ⟨"0xa", "0xt", 0, 9⟩, .warn], some (.ok [])) := by
  have h := C5_transport_fault (fun _ => .netError "ECONNRESET")
    (fun _ => .netError "socket hang up") "0xa" "0xt" 0 9 "ECONNRESET"
    "socket hang up" 1 1 rfl (by decide) rfl (by decide)
  exact ⟨rfl, by decide, rfl, h.1, h.2.1⟩

/-- C8: the per-window client operations never throw for any transport
behaviour or response content: every terminating execution returns a list
normally.  In particular a failure-status response whose `message` is
missing or not a string makes the NOTOK test throw a `TypeError`
(`classifyResponse` yields an error), which the surrounding catch absorbs
into a warning plus an empty list. -/
theorem C8_never_throws :
    (∀ (α π : Type) (t : Nat → TransportEvent α) (p : π) (fuel a : Nat),
        (apiFetchLoop t p a fuel).2 = none ∨
          ∃ l, (apiFetchLoop t p a fuel).2 = some (.ok l))
    ∧ (∃ err, classifyResponse
        ({ status := some "0", message := .notStr, result := [] } :
          RespData InternalTransaction) = .error err)
    ∧ EtherscanAPI.getInternalTransactionsByAddress
        (fun _ => .resp { status := some "0", message := .notStr
                          result := [] }) "0xabc" 0 9 1 =
        ([.request ⟨"0xabc", 0, 9⟩, .warn], some (.ok [])) :=
  ⟨fun _ _ t p fuel a => apiFetchLoop_no_exception t p fuel a,
    ⟨_, rfl⟩, rfl⟩

/-- C10: a response with success status `"1"` makes the client return its
result array verbatim after a single request, whatever the message — even a
message beginning with `NOTOK` does not trigger a retry, since the
transient-failure test additionally requires status `"0"`. -/
theorem C10_status_one_verbatim
    (t1 : Nat → TransportEvent InternalTransaction)
    (t2 : Nat → TransportEvent EtherscanEvent)
    (d1 : RespData InternalTransaction) (d2 : RespData EtherscanEvent)
    (addr topic : String) (s e fuel1 fuel2 : Nat)
    (ht1 : t1 0 = .resp d1) (hs1 : d1.status = some "1") (hf1 : 0 < fuel1)
    (ht2 : t2 0 = .resp d2) (hs2 : d2.status = some "1") (hf2 : 0 < fuel2) :
    EtherscanAPI.getInternalTransactionsByAddress t1 addr s e fuel1 =
      ([.request ⟨addr, s, e⟩], some (.ok d1.result))
    ∧ EtherscanAPI.getLogsByAddressTopic t2 addr topic s e fuel2 =
      ([.request ⟨addr, topic, s, e⟩], some (.ok d2.result)) := by
  constructor
  · obtain ⟨f, rfl⟩ : ∃ f, fuel1 = f + 1 := ⟨fuel1 - 1, by omega⟩
    exact apiFetchLoop_success_step _ f ht1 hs1
  · obtain ⟨f, rfl⟩ : ∃ f, fuel2 = f + 1 := ⟨fuel2 - 1, by omega⟩
    exact apiFetchLoop_success_step _ f ht2 hs2

/-- Witness for C10: success responses whose messages begin with `NOTOK`
are returned verbatim with no retry. -/
theorem C10_status_one_verbatim_witness :
    (fun _ : Nat => TransportEvent.resp
      { status := some "1", message := .str "NOTOK misleading"
        result := [sampleTx] }) 0 =
      .resp { status := some "1", message := .str "NOTOK misleading"
              result := [sampleTx] }
    ∧ (({ status := some "1", message := .str "NOTOK misleading"
          result := [sampleTx] } : RespData InternalTransaction).status =
        some "1")
    ∧ (0 : Nat) < 1
    ∧ EtherscanAPI.getInternalTransactionsByAddress
        (fun _ => .resp { status := some "1"
                          message := .str "NOTOK misleading"
                          result := [sampleTx] }) "0xa" 0 9 1 =
        ([.request ⟨"0xa", 0, 9⟩], some (.ok [sampleTx]))
    ∧ EtherscanAPI.getLogsByAddressTopic
        (fun _ => .resp { status := some "1"
                          message := .str "NOTOK misleading"
                          result := [sampleEvent] }) "0xa" "0xt" 0 9 1 =
        ([.request ⟨"0xa", "0xt", 0, 9⟩], some (.ok [sampleEvent])) := by
  have h := C10_status_one_verbatim
    (fun _ => .resp { status := some "1", message := .str "NOTOK misleading"
                      result := [sampleTx] })
    (fun _ => .resp { status := some "1", message := .str "NOTOK misleading"
                      result := [sampleEvent] })
    { status := some "1", message := .str "NOTOK misleading"
      result := [sampleTx] }
    { status := some "1", message := .str "NOTOK misleading"
      result := [sampleEvent] }
    "0xa" "0xt" 0 9 1 1 rfl rfl (by decide) rfl rfl (by decide)
  exact ⟨rfl, rfl, by decide, h.1, h.2⟩
